import Mathlib

/-!
Verification development for the lead-qualification conversation engine in
`app/services/orchestration_service.py` (class `IntelligentHybridOrchestrator`).

The Python code is shallowly embedded: strings are Lean `String` (a list of
unicode characters, as in CPython), dictionaries are association lists with
dict-update semantics, and the external collaborators (session store, lead
store, lawyer notification, WhatsApp transport) are modelled by an explicit
environment of call outcomes plus an effect record stating which collaborator
calls were issued.  Character-level operations (`str.lower`, `str.strip`,
`str.title`, …) are modelled on the ASCII and Latin-1 ranges, which cover
every alphabet occurring in this codebase (Portuguese and English); the
multi-character expansion of `ß` under upper-casing and non-Latin scripts are
outside the modelled range.
-/

set_option maxRecDepth 20000

/-- Python ASCII whitespace, the characters removed by `str.strip()` and used
by `str.split()` (unicode spaces beyond these do not occur in the sources). -/
def pySpace (c : Char) : Bool :=
  c = ' ' || c = '\t' || c = '\n' || c = '\r' || c = '\x0b' || c = '\x0c'

/-- `str.lower` on one character, on the ASCII and Latin-1 ranges
(`A`–`Z` and `À`–`Þ` except `×` gain 32; everything else is unchanged). -/
def pyLowerChar (c : Char) : Char :=
  if 'A' ≤ c ∧ c ≤ 'Z' then Char.ofNat (c.toNat + 32)
  else if 0xC0 ≤ c.toNat ∧ c.toNat ≤ 0xDE ∧ c.toNat ≠ 0xD7 then Char.ofNat (c.toNat + 32)
  else c

/-- `str.upper` on one character, on the ASCII and Latin-1 ranges
(`a`–`z` and `à`–`þ` except `÷` lose 32, `ÿ` maps to `Ÿ`). -/
def pyUpperChar (c : Char) : Char :=
  if 'a' ≤ c ∧ c ≤ 'z' then Char.ofNat (c.toNat - 32)
  else if 0xE0 ≤ c.toNat ∧ c.toNat ≤ 0xFE ∧ c.toNat ≠ 0xF7 then Char.ofNat (c.toNat - 32)
  else if c.toNat = 0xFF then Char.ofNat 0x178
  else c

/-- A cased character in the sense of `str.title` (ASCII and Latin-1 letters). -/
def pyCased (c : Char) : Bool :=
  ('A' ≤ c && c ≤ 'Z') || ('a' ≤ c && c ≤ 'z') ||
  (0xC0 ≤ c.toNat && c.toNat ≤ 0xFF && c.toNat ≠ 0xD7 && c.toNat ≠ 0xF7) ||
  c.toNat = 0xAA || c.toNat = 0xB5 || c.toNat = 0xBA

/-- `str.lower`. -/
def pyLower (s : String) : String := ⟨s.data.map pyLowerChar⟩

/-- Strip `pySpace` characters from both ends of a character list. -/
def pyStripL (l : List Char) : List Char :=
  ((l.dropWhile pySpace).reverse.dropWhile pySpace).reverse

/-- `str.strip()`. -/
def pyStrip (s : String) : String := ⟨pyStripL s.data⟩

/-- Worker for `str.split()`: accumulates the current word (reversed). -/
def wordsAux : List Char → List Char → List String
  | [], [] => []
  | [], acc => [⟨acc.reverse⟩]
  | c :: cs, acc =>
    if pySpace c then
      (if acc = [] then wordsAux cs [] else ⟨acc.reverse⟩ :: wordsAux cs [])
    else wordsAux cs (c :: acc)

/-- `str.split()` with no argument: split on whitespace runs, dropping
empty pieces. -/
def pySplitWords (s : String) : List String := wordsAux s.data []

/-- `" ".join`. -/
def joinSpace : List String → String
  | [] => ""
  | [w] => w
  | w :: ws => w ++ " " ++ joinSpace ws

/-- `str.capitalize()`: first character upper-cased, the rest lower-cased. -/
def pyCapitalize (s : String) : String :=
  match s.data with
  | [] => ""
  | c :: r => ⟨pyUpperChar c :: r.map pyLowerChar⟩

/-- Worker for `str.title()`: the flag records whether the previous character
was cased. -/
def pyTitleAux : Bool → List Char → List Char
  | _, [] => []
  | prevCased, c :: cs =>
    let c' := if pyCased c then (if prevCased then pyLowerChar c else pyUpperChar c) else c
    c' :: pyTitleAux (pyCased c) cs

/-- `str.title()`. -/
def pyTitle (s : String) : String := ⟨pyTitleAux false s.data⟩

/-- Contiguous-sublist check on character lists. -/
def listInfix (pat : List Char) : List Char → Bool
  | [] => pat.isEmpty
  | c :: cs => pat.isPrefixOf (c :: cs) || listInfix pat cs

/-- Python's `needle in haystack` on strings (substring containment). -/
def pyIn (needle hay : String) : Bool := listInfix needle.data hay.data

/-- Worker for `str.replace`: replaces non-overlapping occurrences left to
right; the fuel argument (initially the list length) makes the recursion
structural. -/
def replaceAllAux (pat rep : List Char) : Nat → List Char → List Char
  | _, [] => []
  | 0, l => l
  | f + 1, c :: cs =>
    if pat ≠ [] ∧ pat.isPrefixOf (c :: cs) then
      rep ++ replaceAllAux pat rep f ((c :: cs).drop pat.length)
    else c :: replaceAllAux pat rep f cs

/-- `str.replace(pat, rep)` (all occurrences). -/
def pyReplace (s pat rep : String) : String :=
  ⟨replaceAllAux pat.data rep.data s.data.length s.data⟩

/-- `''.join(filter(str.isdigit, s))` (decimal digits; the exotic unicode
digit classes accepted by `str.isdigit` do not occur in this domain). -/
def filterDigits (s : String) : String := ⟨s.data.filter Char.isDigit⟩

/-- `str.isdigit()`: non-empty and all digits. -/
def pyIsDigitStr (s : String) : Bool := !s.data.isEmpty && s.data.all Char.isDigit

/-- First match of the regex `(\d{10,11})`: at the first position where at
least 10 consecutive digits start, take (greedily) up to 11 of them. -/
def findPhoneRun : List Char → Option (List Char)
  | [] => none
  | c :: cs =>
    let run := (c :: cs).takeWhile Char.isDigit
    if 10 ≤ run.length then some (run.take 11) else findPhoneRun cs

/-- Character class `[A-Za-z0-9._%+-]` (email local part). -/
def isLocalChar (c : Char) : Bool :=
  c.isAlpha || c.isDigit || c = '.' || c = '_' || c = '%' || c = '+' || c = '-'

/-- Character class `[A-Za-z0-9.-]` (email domain). -/
def isDomainChar (c : Char) : Bool :=
  c.isAlpha || c.isDigit || c = '.' || c = '-'

/-- Backtracking of `[A-Za-z0-9.-]+\.[A-Za-z]{2,}` inside the maximal
domain-character run `dom`: the greedy engine picks the largest index `k ≥ 1`
with `dom[k] = '.'` followed by at least two letters; returns that index and
the (greedy) letter run after the dot. -/
def bestSplitAux (dom : List Char) : Nat → Option (Nat × List Char)
  | 0 => none
  | k + 1 =>
    let tld := (dom.drop (k + 2)).takeWhile Char.isAlpha
    if dom.get? (k + 1) = some '.' ∧ 2 ≤ tld.length then some (k + 1, tld)
    else bestSplitAux dom k

/-- Match of `([A-Za-z0-9._%+-]+@[A-Za-z0-9.-]+\.[A-Za-z]{2,})` anchored at
the head of `l` (the local part must take its maximal run, since `@` is not a
local character). -/
def emailMatchAt (l : List Char) : Option (List Char) :=
  let loc := l.takeWhile isLocalChar
  if loc.isEmpty then none
  else
    match l.drop loc.length with
    | '@' :: rest =>
      let dom := rest.takeWhile isDomainChar
      match (if dom.length = 0 then none else bestSplitAux dom (dom.length - 1)) with
      | some (k, tld) => some (loc ++ '@' :: (dom.take k ++ '.' :: tld))
      | none => none
    | _ => none

/-- First (leftmost) match of the email regex. -/
def findEmail : List Char → Option (List Char)
  | [] => none
  | c :: cs =>
    match emailMatchAt (c :: cs) with
    | some m => some m
    | none => findEmail cs

/-- `_extract_contact_info`: first 10–11 digit run as phone, first email-like
token as email; empty strings when absent. -/
def extractContactInfo (contactText : String) : String × String :=
  (match findPhoneRun contactText.data with
   | some r => (⟨r⟩ : String)
   | none => "",
   match findEmail contactText.data with
   | some r => (⟨r⟩ : String)
   | none => "")

/-- `invalid_responses`, flattened in the order `_is_invalid_response`
builds `all_invalid` (greetings, short_responses, test_responses, generic). -/
def allInvalidResponses : List String :=
  ["oi", "olá", "ola", "hello", "hi", "hey", "e ai", "eai", "opa",
   "ok", "sim", "não", "nao", "yes", "no", "k", "kk", "kkk",
   "teste", "test", "123", "abc", "aaa", "bbb", "ccc", "xxx",
   "p.o.", "po", "p.o", ".", "..", "...", "a", "aa", "bb", "cc"]

/-- `_is_invalid_response`. -/
def isInvalidResponse (response : String) : Bool :=
  if pyStrip response = "" then true
  else
    let rl := pyStrip (pyLower response)
    if rl.length < 2 then true
    else if pyIsDigitStr rl ∧ rl.length < 4 then true
    else if (rl.data.filter (fun c => c ≠ ' ')).dedup.length ≤ 2 ∧ rl.length < 4 then true
    else allInvalidResponses.contains rl

/-- `_format_brazilian_phone`. -/
def formatBrazilianPhone (phone : String) : String :=
  if phone = "" then ""
  else
    let d0 := phone.data.filter Char.isDigit
    let d := if ['5', '5'].isPrefixOf d0 then d0.drop 2 else d0
    if d.length = 8 then ⟨'5' :: '5' :: d⟩
    else if d.length = 9 then ⟨'5' :: '5' :: d⟩
    else if d.length = 10 then
      let ddd := d.take 2
      let number := d.drop 2
      let number :=
        if number.length = 8 ∧ number.headD ' ' ∈ ['6', '7', '8', '9'] then '9' :: number
        else number
      ⟨'5' :: '5' :: (ddd ++ number)⟩
    else if d.length = 11 then ⟨'5' :: '5' :: (d.take 2 ++ d.drop 2)⟩
    else ⟨'5' :: '5' :: d⟩

/-- `_is_phone_number`: 10 to 13 digits in the message. -/
def isPhoneNumber (message : String) : Bool :=
  10 ≤ (filterDigits message).length && (filterDigits message).length ≤ 13

/-- One step of the hardcoded schema flow (`_get_schema_flow`), flattened:
the `validation` sub-dict's optional keys become `Option` fields so that the
`validation.get(key, default)` reads can be modelled faithfully. -/
structure Step where
  id : Nat
  field : String
  question : String
  minLength : Option Nat := none
  minWords : Option Nat := none
  required : Bool := true
  vtype : String := ""
  strict : Bool := true
  normalizeMap : List (String × String) := []
  errorMessage : String := ""
deriving DecidableEq

/-- Step 1 of the hardcoded flow. -/
def step1 : Step :=
  { id := 1, field := "identification",
    question := "Olá! Seja bem-vindo ao m.lima. Estou aqui para entender seu caso e agilizar o contato com um de nossos advogados especializados.\n\nPara começar, qual é o seu nome completo?",
    minLength := some 2, minWords := some 1, required := true, vtype := "name", strict := true,
    errorMessage := "Por favor, informe seu nome completo (nome e sobrenome). Exemplo: João Silva" }

/-- Step 2 of the hardcoded flow. -/
def step2 : Step :=
  { id := 2, field := "contact_info",
    question := "Prazer em conhecê-lo, \x7buser_name\x7d! Agora preciso de algumas informações de contato:\n\n📱 Qual o melhor telefone/WhatsApp para contato?\n📧 Você poderia informar seu e-mail também?",
    minLength := some 10, required := true, vtype := "contact_combined", strict := true,
    errorMessage := "Por favor, informe seu telefone (com DDD) e e-mail. Exemplo: (11) 99999-9999 - joao@email.com" }

/-- Step 3 of the hardcoded flow. -/
def step3 : Step :=
  { id := 3, field := "area_qualification",
    question := "Perfeito, \x7buser_name\x7d! Com qual área do direito você precisa de ajuda?\n\n• Penal\n• Saúde (ações e liminares médicas)",
    minLength := some 3, required := true, vtype := "area", strict := true,
    errorMessage := "Por favor, escolha uma das áreas disponíveis: Penal ou Saúde (liminares médicas)." }

/-- Step 4 of the hardcoded flow. -/
def step4 : Step :=
  { id := 4, field := "case_details",
    question := "Entendi, \x7buser_name\x7d. Me diga de forma breve sobre sua situação em \x7barea\x7d:\n\n• O caso já está em andamento na justiça ou é uma situação inicial?\n• Existe algum prazo ou audiência marcada?\n• Em qual cidade ocorreu/está ocorrendo?",
    minLength := some 20, minWords := some 5, required := true, vtype := "case_description", strict := true,
    errorMessage := "Por favor, me conte mais detalhes sobre sua situação. Preciso de pelo menos 20 caracteres para entender seu caso adequadamente." }

/-- Step 5 of the hardcoded flow. -/
def step5 : Step :=
  { id := 5, field := "lead_warming",
    question := "Obrigado por compartilhar, \x7buser_name\x7d. Casos como o seu em \x7barea\x7d exigem atenção imediata para evitar complicações.\n\nNossos advogados já atuaram em dezenas de casos semelhantes com ótimos resultados. Vou registrar os principais pontos para que o advogado responsável já entenda sua situação e agilize a solução.\n\nEm instantes você será direcionado para um de nossos especialistas. Está tudo certo?",
    minLength := some 1, required := true, vtype := "confirmation", strict := false,
    errorMessage := "Por favor, confirme se posso prosseguir com o direcionamento. Digite \x27sim\x27 ou \x27não\x27." }

/-- The hardcoded flow's steps, already in ascending id order (the code sorts
them by id). -/
def flowSteps : List Step := [step1, step2, step3, step4, step5]

/-- `next((s for s in steps if s["id"] == i), None)`. -/
def findStep (i : Nat) : Option Step := flowSteps.find? (fun st => st.id = i)

/-- Association-list read with default, mirroring `dict.get(k, d)`. -/
def ldGet : List (String × String) → String → String → String
  | [], _, d => d
  | (a, b) :: t, k, d => if a = k then b else ldGet t k d

/-- `dict[k] = v`: replace in place when the key exists, append otherwise. -/
def ldSet : List (String × String) → String → String → List (String × String)
  | [], k, v => [(k, v)]
  | (a, b) :: t, k, v => if a = k then (k, v) :: t else (a, b) :: ldSet t k v

/-- `dict.get(k)` on the per-step attempt counters (`None` when absent). -/
def lookupAtt : List (Nat × Nat) → Nat → Option Nat
  | [], _ => none
  | (a, b) :: t, k => if a = k then some b else lookupAtt t k

/-- `dict[k] = v` on the attempt counters. -/
def setAtt : List (Nat × Nat) → Nat → Nat → List (Nat × Nat)
  | [], k, v => [(k, v)]
  | (a, b) :: t, k, v => if a = k then (k, v) :: t else (a, b) :: setAtt t k v

/-- `if k not in va: va[k] = 0`. -/
def ensureAtt (va : List (Nat × Nat)) (k : Nat) : List (Nat × Nat) :=
  if lookupAtt va k = none then setAtt va k 0 else va

/-- Counter value as the engine reads it (0 when the key is absent). -/
def attD (va : List (Nat × Nat)) (k : Nat) : Nat := (lookupAtt va k).getD 0

/-- Keywords of the `area_mapping` group normalized to "Direito Penal". -/
def penalKeywords : List String := ["penal", "criminal", "crime", "direito penal"]

/-- Keywords of the `area_mapping` group normalized to "Saúde/Liminares". -/
def saudeKeywords : List String :=
  ["saude", "saúde", "liminar", "saude liminar", "saúde liminar", "medica", "médica", "health", "injunction"]

/-- Affirmative keywords of the confirmation normalization branch. -/
def confirmationNormKeywords : List String :=
  ["sim", "ok", "pode", "claro", "vamos", "confirmo", "confirmado", "s", "yes"]

/-- `valid_areas` of `_should_advance_step_schema` step 3. -/
def validAreas : List String :=
  ["penal", "criminal", "crime", "saude", "saúde", "liminar", "medica", "médica"]

/-- Contact keywords of `_should_advance_step_schema` step 2. -/
def contactKeywords : List String :=
  ["telefone", "celular", "whatsapp", "email", "gmail", "hotmail"]

/-- Confirmation keywords of `_should_advance_step_schema` step 5. -/
def confirmations5 : List String :=
  ["sim", "ok", "pode", "claro", "vamos", "confirmo", "certo", "yes", "s"]

/-- `_validate_and_normalize_answer_schema`. -/
def validateAndNormalizeAnswerSchema (answer0 : String) (stepConfig : Step) : String :=
  let answer := pyStrip answer0
  let stepId := stepConfig.id
  match stepConfig.normalizeMap.find? (fun p => pyIn (pyLower p.1) (pyLower answer)) with
  | some p => p.2
  | none =>
    let fieldType := stepConfig.vtype
    if fieldType = "name" ∨ stepId = 1 then
      if isInvalidResponse answer then answer
      else
        let words := (pySplitWords answer).filter (fun w => pyStrip w ≠ "")
        if 2 ≤ words.length then joinSpace (words.map pyCapitalize)
        else pyCapitalize answer
    else if fieldType = "contact_combined" ∨ stepId = 2 then answer
    else if fieldType = "area" ∨ stepId = 3 then
      let answerLower := pyLower answer
      if penalKeywords.any (fun k => pyIn k answerLower) then "Direito Penal"
      else if saudeKeywords.any (fun k => pyIn k answerLower) then "Saúde/Liminares"
      else pyTitle answer
    else if fieldType = "case_description" ∨ stepId = 4 then answer
    else if fieldType = "confirmation" ∨ stepId = 5 then
      let answerLower := pyLower answer
      if confirmationNormKeywords.any (fun k => pyIn k answerLower) then "Confirmado"
      else answer
    else if fieldType = "phone" then filterDigits answer
    else answer

/-- `_should_advance_step_schema`. -/
def shouldAdvanceStepSchema (answer0 : String) (stepConfig : Step) (isFlexible : Bool) : Bool :=
  let answer := pyStrip answer0
  let minLength := stepConfig.minLength.getD 1
  let minWords := stepConfig.minWords.getD 1
  let required := stepConfig.required
  let stepId := stepConfig.id
  if required ∧ answer = "" then false
  else if stepId = 1 then
    if isInvalidResponse answer then false
    else if pyIsDigitStr answer then false
    else
      let words := (pySplitWords answer).filter (fun w => pyStrip w ≠ "" ∧ 2 ≤ w.length)
      decide (1 ≤ words.length ∧ 2 ≤ answer.length)
  else if stepId = 2 then
    let answerLower := pyLower answer
    let hasPhone := (findPhoneRun answer.data).isSome
    let hasEmail := (findEmail answer.data).isSome
    let hasContactKeywords := contactKeywords.any (fun w => pyIn w answerLower)
    if isFlexible then hasPhone || hasEmail || hasContactKeywords || decide (8 ≤ answer.length)
    else (hasPhone || hasEmail) && decide (minLength ≤ answer.length)
  else if stepId = 3 then
    let answerLower := pyLower answer
    let hasValidArea := validAreas.any (fun a => pyIn a answerLower)
    if isFlexible then hasValidArea || decide (4 ≤ answer.length)
    else hasValidArea
  else if stepId = 4 then
    let words := (pySplitWords answer).filter (fun w => pyStrip w ≠ "")
    if isFlexible then decide (15 ≤ answer.length ∧ 4 ≤ words.length)
    else decide (minLength ≤ answer.length ∧ minWords ≤ words.length)
  else if stepId = 5 then
    let answerLower := pyLower answer
    let hasConfirmation := confirmations5.any (fun conf => pyIn conf answerLower)
    hasConfirmation || decide (2 ≤ answer.length)
  else
    decide ((if isFlexible then 2 else minLength) ≤ answer.length)

/-- The `interpolation_data` mapping of `_interpolate_message`, in insertion
order. -/
def interpolationData (leadData : List (String × String)) : List (String × String) :=
  [("user_name", ldGet leadData "identification" ""),
   ("area", ldGet leadData "area_qualification" ""),
   ("contact_info", ldGet leadData "contact_info" ""),
   ("case_details", ldGet leadData "case_details" ""),
   ("phone", ldGet leadData "phone" ""),
   ("case_summary",
     let cd := ldGet leadData "case_details" ""
     if cd ≠ "" ∧ 100 < cd.length then ⟨cd.data.take 100⟩ ++ "..." else cd)]

/-- One iteration of the interpolation loop: substitute `\x7bkey\x7d` when the
value is non-empty and the token occurs. -/
def interpStep (message : String) (kv : String × String) : String :=
  if kv.2 ≠ "" ∧ pyIn ("\x7b" ++ kv.1 ++ "\x7d") message then
    pyReplace message ("\x7b" ++ kv.1 ++ "\x7d") kv.2
  else message

/-- `_interpolate_message`. -/
def interpolateMessage (message : String) (leadData : List (String × String)) : String :=
  if message = "" then "Como posso ajudá-lo?"
  else (interpolationData leadData).foldl interpStep message

/-- The session payload, restricted to the fields the modelled slice reads or
writes.  Python's `fallback_step = None` is modelled as `0` (no step has id 0,
so both fail the step lookup identically); the timestamp fields
(`created_at`, `last_updated`, `qualification_completed_at`) carry no decision
logic and are omitted. -/
structure Session where
  sessionId : String := ""
  platform : String := "web"
  leadData : List (String × String) := []
  messageCount : Nat := 0
  fallbackStep : Nat := 0
  phoneSubmitted : Bool := false
  fallbackCompleted : Bool := false
  leadQualified : Bool := false
  validationAttempts : List (Nat × Nat) := []
  sessionStarted : Bool := false
  flowInitialized : Bool := false
  phoneNumber : Option String := none
  phoneFormatted : Option String := none
  lastMessage : Option String := none
  lastResponse : Option String := none
deriving DecidableEq

/-- `_get_or_create_session`'s fresh-session dictionary. -/
def freshSession (sessionId platform : String) : Session :=
  { sessionId := sessionId, platform := platform }

/-- Which collaborator calls a finalization issued (`save_lead_data`,
`lawyer_notification_service.notify_lawyers_of_new_lead`,
`baileys_service.send_whatsapp_message`).  These record that the call was
made, not that it succeeded. -/
structure FinEffects where
  leadSaveAttempted : Bool
  notifyAttempted : Bool
  whatsappAttempted : Bool
deriving DecidableEq

/-- No collaborator call issued. -/
def noFinEffects : FinEffects := ⟨false, false, false⟩

/-- `_handle_lead_finalization`, as a pure transition returning the updated
session, the response text and the issued collaborator calls.  The lead store
and the notification service are modelled as reachable (their calls are
issued and logged failures change nothing observable here); `whatsappOk`
is the outcome of the WhatsApp send, which the success message quotes. -/
def handleLeadFinalization (whatsappOk : Bool) (s : Session) : Session × String × FinEffects :=
  let leadData := s.leadData
  let phone0 := ldGet leadData "phone" ""
  let phoneClean :=
    if phone0 = "" then
      match findPhoneRun (ldGet leadData "contact_info" "").data with
      | some r => (⟨r⟩ : String)
      | none => ""
    else phone0
  if phoneClean.length < 10 then
    (s, "Para finalizar, preciso do seu número de WhatsApp com DDD (exemplo: 11999999999):",
     noFinEffects)
  else
    let phoneFormatted := formatBrazilianPhone phoneClean
    let s :=
      { s with phoneNumber := some phoneClean, phoneFormatted := some phoneFormatted,
               phoneSubmitted := true, leadQualified := true,
               leadData := ldSet leadData "phone" phoneClean }
    let userName := ldGet s.leadData "identification" "Cliente"
    let area := ldGet s.leadData "area_qualification" "não informada"
    let caseDetails := ldGet s.leadData "case_details" "não detalhada"
    let caseSummary :=
      if 100 < caseDetails.length then ⟨caseDetails.data.take 100⟩ ++ "..." else caseDetails
    let finalMessage :=
      "Perfeito, " ++ userName ++ "! ✅\n\nSuas informações foram registradas com sucesso e nossa equipe especializada em "
      ++ area ++ " foi notificada imediatamente.\n\nUm advogado experiente do m.lima entrará em contato em breve para dar continuidade ao seu caso.\n\n"
      ++ (if whatsappOk then "📱 Confirmação enviada no seu WhatsApp!"
          else "⚠️ Suas informações foram salvas, mas houve um problema ao enviar a confirmação no WhatsApp.")
      ++ "\n\nObrigado por escolher nossos serviços jurídicos! 🤝"
    let _ := caseSummary
    (s, finalMessage, ⟨true, true, true⟩)

/-- The step-specific strict-reminder messages (attempt ≥ 3 branch). -/
def strictReminder (stepId : Nat) : String :=
  if stepId = 1 then "Preciso do seu nome completo para continuar. Por favor, digite seu nome e sobrenome (exemplo: João Silva):"
  else if stepId = 2 then "Preciso de seu telefone e/ou e-mail. Por favor, digite ao menos um contato válido:"
  else if stepId = 3 then "Por favor, escolha apenas: \x27Penal\x27 ou \x27Saúde\x27"
  else if stepId = 4 then "Preciso de mais detalhes sobre sua situação jurídica. Conte-me pelo menos uma frase sobre seu caso:"
  else "Por favor, confirme digitando \x27sim\x27 ou \x27não\x27:"

/-- The greeting tokens recognized on step 1. -/
def greetingTokens : List String := ["oi", "olá", "hello", "hi", "ola", "hey", "e ai", "eai"]

/-- `(message or "").lower().strip()` matching a greeting token exactly. -/
def isGreetingMessage (m : String) : Bool := greetingTokens.contains (pyStrip (pyLower m))

/-- The completion acknowledgement returned once `fallback_completed` holds. -/
def completedAck (s : Session) : String :=
  "Obrigado " ++ ldGet s.leadData "identification" "" ++ "! Nossa equipe já foi notificada e entrará em contato em breve. 🤝"

/-- Result of `_get_fallback_response`: the session as mutated in memory, the
response text, the finalization's collaborator calls when one ran, and — as a
ghost of the `Attempt n, Flexible mode` / `Should advance` debug logs — the
attempt number, flexible flag, normalized answer and acceptance of an answer
evaluation, when one took place. -/
structure FbResult where
  session : Session
  response : String
  fin : Option FinEffects
  attemptEval : Option (Nat × Bool × String × Bool)
deriving DecidableEq

/-- `_get_fallback_response`.  Session-store writes inside the flow are
modelled as succeeding (their failures are swallowed by this method's own
`except`), so the pure transition below is the method's behavior whenever its
collaborators are reachable. -/
def getFallbackResponse (whatsappOk : Bool) (s : Session) (message : String) : FbResult :=
  if s.flowInitialized = false then
    let s' := { s with fallbackStep := 1, leadData := [], fallbackCompleted := false,
                       leadQualified := false, validationAttempts := [(1, 0)],
                       sessionStarted := true, flowInitialized := true }
    { session := s', response := interpolateMessage step1.question [], fin := none,
      attemptEval := none }
  else if s.fallbackCompleted = true then
    { session := s, response := completedAck s, fin := none, attemptEval := none }
  else
    let currentStepId := s.fallbackStep
    let leadData := s.leadData
    let va := ensureAtt s.validationAttempts currentStepId
    match findStep currentStepId with
    | none =>
      let s' := { s with fallbackStep := 1, validationAttempts := [(1, 0)] }
      { session := s', response := interpolateMessage step1.question [], fin := none,
        attemptEval := none }
    | some currentStep =>
      let s := { s with validationAttempts := va }
      if currentStepId = 1 ∧ isGreetingMessage message = true then
        { session := s, response := interpolateMessage currentStep.question leadData,
          fin := none, attemptEval := none }
      else if pyStrip message = "" then
        { session := s, response := interpolateMessage currentStep.question leadData,
          fin := none, attemptEval := none }
      else
        let n := attD va currentStepId + 1
        let va := setAtt va currentStepId n
        let isFlexible := decide (3 < n)
        let normalizedAnswer := validateAndNormalizeAnswerSchema message currentStep
        let shouldAdvance := shouldAdvanceStepSchema normalizedAnswer currentStep isFlexible
        let s := { s with validationAttempts := va }
        if shouldAdvance = false then
          let validationMsg :=
            if 3 ≤ n then strictReminder currentStepId else currentStep.errorMessage
          let question := interpolateMessage currentStep.question leadData
          { session := s, response := validationMsg ++ "\n\n" ++ question, fin := none,
            attemptEval := some (n, isFlexible, normalizedAnswer, shouldAdvance) }
        else
          let va := setAtt va currentStepId 0
          let leadData := ldSet leadData currentStep.field normalizedAnswer
          let leadData :=
            if currentStep.field = "contact_info" then
              let pe := extractContactInfo normalizedAnswer
              let leadData := if pe.1 ≠ "" then ldSet leadData "phone" pe.1 else leadData
              if pe.2 ≠ "" then ldSet leadData "email" pe.2 else leadData
            else leadData
          let s := { s with validationAttempts := va, leadData := leadData }
          match findStep (currentStepId + 1) with
          | some nextStep =>
            let va := setAtt va (currentStepId + 1) 0
            let s := { s with fallbackStep := currentStepId + 1, validationAttempts := va }
            { session := s, response := interpolateMessage nextStep.question leadData,
              fin := none, attemptEval := some (n, isFlexible, normalizedAnswer, shouldAdvance) }
          | none =>
            let s := { s with fallbackCompleted := true, leadQualified := true }
            let r := handleLeadFinalization whatsappOk s
            { session := r.1, response := r.2.1, fin := some r.2.2,
              attemptEval := some (n, isFlexible, normalizedAnswer, shouldAdvance) }

/-- `_handle_phone_collection` (its own `except` swallows collaborator
failures, so it never raises to the caller). -/
def handlePhoneCollection (whatsappOk : Bool) (phoneMessage : String) (s : Session) :
    Session × String × FinEffects :=
  let phoneClean := filterDigits phoneMessage
  if phoneClean.length < 10 ∨ 13 < phoneClean.length then
    (s, "Número inválido. Por favor, digite no formato com DDD (exemplo: 11999999999):",
     noFinEffects)
  else
    let s := { s with leadData := ldSet s.leadData "phone" phoneClean }
    handleLeadFinalization whatsappOk s

/-- Outcomes of the collaborator calls that can raise into `process_message`:
the session-store read (`get_user_session`, returning the stored session when
it succeeds) and the top-level session-store write at the end of the method. -/
structure Env where
  storedSession : Option Session := none
  getRaises : Bool := false
  saveRaises : Bool := false
  whatsappOk : Bool := true
deriving DecidableEq

/-- The dictionary `process_message` returns; keys absent from a branch's
dictionary are `none`. -/
structure ProcessResult where
  responseType : String
  platform : String
  sessionId : String
  response : String
  error : Option String := none
  aiMode : Option Bool := none
  fallbackStep : Option Nat := none
  leadQualified : Option Bool := none
  fallbackCompleted : Option Bool := none
  leadData : Option (List (String × String)) := none
  validationAttempts : Option (List (Nat × Nat)) := none
  messageCount : Option Nat := none
  phoneSubmitted : Option Bool := none
  sessionStarted : Option Bool := none
  flowInitialized : Option Bool := none
deriving DecidableEq

/-- The body of `process_message` without its outer `try/except`: an
exception from a collaborator becomes `Except.error`.  Returns the result
dictionary together with the final in-memory session state. -/
def processMessageExc (env : Env) (message sessionId : String) (phoneNumber : Option String)
    (platform : String) : Except String (ProcessResult × Session) :=
  if env.getRaises then .error "get_user_session failed"
  else
    let sessionData := (env.storedSession).getD (freshSession sessionId platform)
    let sessionData :=
      match phoneNumber with
      | some p => { sessionData with phoneNumber := some p }
      | none => sessionData
    if sessionData.leadQualified = true ∧ sessionData.phoneSubmitted = false ∧
        isPhoneNumber message = true then
      let r := handlePhoneCollection env.whatsappOk message sessionData
      .ok ({ responseType := "phone_collected_debug", platform := platform,
             sessionId := sessionId, response := r.2.1,
             phoneSubmitted := some true,
             messageCount := some (sessionData.messageCount + 1) }, r.1)
    else
      let fb := getFallbackResponse env.whatsappOk sessionData message
      let sessionData' :=
        { fb.session with lastMessage := some message, lastResponse := some fb.response,
                          messageCount := fb.session.messageCount + 1 }
      if env.saveRaises then .error "save_user_session failed"
      else
        .ok ({ responseType := platform ++ "_fluxo_debug", platform := platform,
               sessionId := sessionId, response := fb.response,
               aiMode := some false,
               fallbackStep := some sessionData'.fallbackStep,
               leadQualified := some sessionData'.leadQualified,
               fallbackCompleted := some sessionData'.fallbackCompleted,
               leadData := some sessionData'.leadData,
               validationAttempts := some sessionData'.validationAttempts,
               messageCount := some sessionData'.messageCount,
               sessionStarted := some sessionData'.sessionStarted,
               flowInitialized := some sessionData'.flowInitialized }, sessionData')

/-- The dictionary built by `process_message`'s outer `except` handler. -/
def mkErrorRecord (platform sessionId e : String) : ProcessResult :=
  { responseType := "orchestration_error_debug", platform := platform, sessionId := sessionId,
    response := "Olá! Seja bem-vindo ao m.lima. Vamos iniciar, qual é o seu nome completo?",
    error := some e }

/-- `process_message`: the body wrapped in the outer `try/except`.  The
second component is the final in-memory session (`none` when the handler ran
on a read failure, before a session existed). -/
def processMessage (env : Env) (message sessionId : String) (phoneNumber : Option String)
    (platform : String) : ProcessResult × Option Session :=
  match processMessageExc env message sessionId phoneNumber platform with
  | .ok r => (r.1, some r.2)
  | .error e => (mkErrorRecord platform sessionId e, none)

/-- The phone-resolution rule finalization applies, stated on its own for the
theorems below: prefer an already-extracted `phone` field; otherwise the first
10–11 digit run of `contact_info`; empty when neither exists. -/
def specResolvePhone (ld : List (String × String)) : String :=
  if ldGet ld "phone" "" = "" then
    match findPhoneRun (ldGet ld "contact_info" "").data with
    | some r => ⟨r⟩
    | none => ""
  else ldGet ld "phone" ""

/-- The phone-request prompt of the finalization guard. -/
def phonePrompt : String :=
  "Para finalizar, preciso do seu número de WhatsApp com DDD (exemplo: 11999999999):"

/-- A session that finished all five steps but whose collected contact data
contains no usable phone digits (used as a concrete witness input). -/
def sessionNoPhone : Session :=
  { sessionId := "s-nophone", flowInitialized := true, fallbackCompleted := true,
    leadQualified := true, phoneSubmitted := false, fallbackStep := 5,
    leadData := [("identification", "Ana Maria"), ("contact_info", "me ligue depois")] }

/-- A completed, qualified session without a submitted phone (the state the
engine reaches when finalization could not resolve a phone number). -/
def sessionCompleted : Session :=
  { sessionId := "s-completed", flowInitialized := true, fallbackCompleted := true,
    leadQualified := true, phoneSubmitted := false, fallbackStep := 5,
    leadData := [("identification", "João Silva"), ("contact_info", "sem contato")] }

/-- An initialized session sitting on step 1 with three failed attempts. -/
def sessionStep1Tries3 : Session :=
  { sessionId := "s-tries", flowInitialized := true, fallbackCompleted := false,
    fallbackStep := 1, validationAttempts := [(1, 3)], sessionStarted := true }

/-- An initialized session sitting on step 1 with no attempts yet. -/
def sessionStep1Fresh : Session :=
  { sessionId := "s-fresh", flowInitialized := true, fallbackCompleted := false,
    fallbackStep := 1, validationAttempts := [(1, 0)], sessionStarted := true }

theorem lookupAtt_setAtt_self (va : List (Nat × Nat)) (k v : Nat) :
    lookupAtt (setAtt va k v) k = some v := by
  induction va with
  | nil => simp [setAtt, lookupAtt]
  | cons p t ih =>
    obtain ⟨a, b⟩ := p
    by_cases h : a = k
    · simp [setAtt, h, lookupAtt]
    · simp [setAtt, h, lookupAtt, ih]

theorem lookupAtt_setAtt_ne (va : List (Nat × Nat)) (k v k' : Nat) (h : k' ≠ k) :
    lookupAtt (setAtt va k v) k' = lookupAtt va k' := by
  induction va with
  | nil => simp [setAtt, lookupAtt, Ne.symm h]
  | cons p t ih =>
    obtain ⟨a, b⟩ := p
    by_cases ha : a = k
    · subst ha
      simp [setAtt, lookupAtt, Ne.symm h]
    · simp [setAtt, ha, lookupAtt, ih]

theorem attD_setAtt_self (va : List (Nat × Nat)) (k v : Nat) :
    attD (setAtt va k v) k = v := by
  simp [attD, lookupAtt_setAtt_self]

theorem attD_setAtt_ne (va : List (Nat × Nat)) (k v k' : Nat) (h : k' ≠ k) :
    attD (setAtt va k v) k' = attD va k' := by
  simp [attD, lookupAtt_setAtt_ne va k v k' h]

theorem attD_ensureAtt (va : List (Nat × Nat)) (k : Nat) :
    attD (ensureAtt va k) k = attD va k := by
  unfold ensureAtt
  by_cases h : lookupAtt va k = none
  · rw [if_pos h]
    show (lookupAtt (setAtt va k 0) k).getD 0 = (lookupAtt va k).getD 0
    rw [lookupAtt_setAtt_self, h]
    rfl
  · rw [if_neg h]

theorem ldGet_ldSet_self (ld : List (String × String)) (k v d : String) :
    ldGet (ldSet ld k v) k d = v := by
  induction ld with
  | nil => simp [ldSet, ldGet]
  | cons p t ih =>
    obtain ⟨a, b⟩ := p
    by_cases h : a = k
    · simp [ldSet, h, ldGet]
    · simp [ldSet, h, ldGet, ih]

theorem handleLeadFinalization_validationAttempts (wok : Bool) (s : Session) :
    (handleLeadFinalization wok s).1.validationAttempts = s.validationAttempts := by
  simp only [handleLeadFinalization]
  split <;> split <;> rfl

theorem filter_digits_all (l : List Char) :
    (l.filter Char.isDigit).all Char.isDigit = true := by
  rw [List.all_eq_true]
  intro x hx
  exact (List.mem_filter.mp hx).2

theorem all_take (p : Char → Bool) (l : List Char) (n : Nat) (h : l.all p = true) :
    (l.take n).all p = true := by
  rw [List.all_eq_true] at h ⊢
  intro x hx
  exact h x (List.mem_of_mem_take hx)

theorem all_drop (p : Char → Bool) (l : List Char) (n : Nat) (h : l.all p = true) :
    (l.drop n).all p = true := by
  rw [List.all_eq_true] at h ⊢
  intro x hx
  exact h x (List.mem_of_mem_drop hx)

/-- C5 (counterexample): the claim quantifies over every input string, and for
an input whose digit count is not 8–11 it demands the digits prefixed with
"55"; but `_format_brazilian_phone` returns the empty string for the empty
input (digit count 0), not "55". -/
theorem C5_counterexample :
    formatBrazilianPhone "" = "" ∧
    (filterDigits "").length ∉ ([8, 9, 10, 11] : List Nat) ∧
    formatBrazilianPhone "" ≠ "55" ++ filterDigits "" := by
  decide

/-- C5 (amended): for every NON-EMPTY input, after stripping non-digits and
dropping one leading "55", the result is "55" plus the local digits, with a
"9" inserted after the 2-digit area code exactly when the remaining digit
count is 10 and the 8-digit local number starts with 6, 7, 8 or 9; the
11-digit input "11987654321" canonicalizes to "5511987654321"; any other
digit count is returned prefixed with "55" unchanged (the empty input, by
contrast, yields the empty string). -/
theorem C5_phone_canonicalization (s : String) (h : s ≠ "") :
    (formatBrazilianPhone s =
      (let d0 := s.data.filter Char.isDigit
       let d := if ['5', '5'].isPrefixOf d0 then d0.drop 2 else d0
       if d.length = 10 ∧ (d.drop 2).headD ' ' ∈ ['6', '7', '8', '9'] then
         ⟨'5' :: '5' :: (d.take 2 ++ '9' :: d.drop 2)⟩
       else ⟨'5' :: '5' :: d⟩)) ∧
    formatBrazilianPhone "11987654321" = "5511987654321" := by
  refine ⟨?_, by decide⟩
  simp only [formatBrazilianPhone, if_neg h]
  set d0 := s.data.filter Char.isDigit with hd0
  set d := if ['5', '5'].isPrefixOf d0 then d0.drop 2 else d0 with hd
  by_cases h10 : d.length = 10
  case pos =>
    have h8 : ¬d.length = 8 := by omega
    have h9 : ¬d.length = 9 := by omega
    have hlen : (d.drop 2).length = 8 := by rw [List.length_drop, h10]
    rw [if_neg h8, if_neg h9, if_pos h10]
    by_cases hh : (d.drop 2).headD ' ' ∈ (['6', '7', '8', '9'] : List Char)
    · rw [if_pos ⟨hlen, hh⟩, if_pos ⟨h10, hh⟩]
    · rw [if_neg (fun hc => hh hc.2), if_neg (fun hc => hh hc.2), List.take_append_drop]
  case neg =>
    have hno : ¬(d.length = 10 ∧ (d.drop 2).headD ' ' ∈ (['6', '7', '8', '9'] : List Char)) :=
      fun hc => h10 hc.1
    rw [if_neg hno]
    by_cases h8 : d.length = 8
    · rw [if_pos h8]
    by_cases h9 : d.length = 9
    · rw [if_neg h8, if_pos h9]
    by_cases h11 : d.length = 11
    · rw [if_neg h8, if_neg h9, if_neg h10, if_pos h11, List.take_append_drop]
    · rw [if_neg h8, if_neg h9, if_neg h10, if_neg h11]

/-- Witness for C5_phone_canonicalization at the concrete input
"(11) 9765-4321" (10 digits, local number starting with 9). -/
theorem C5_phone_canonicalization_witness :
    formatBrazilianPhone "(11) 9765-4321" = "5511997654321" ∧
    formatBrazilianPhone "11987654321" = "5511987654321" := by
  have h := C5_phone_canonicalization "(11) 9765-4321" (by decide)
  exact ⟨by rw [h.1]; decide, h.2⟩

/-- C9 (counterexample): the claim demands "55" for every no-digit input
including the empty string, but the code's `if not phone_clean` guard returns
the empty string for the empty input. -/
theorem C9_counterexample :
    formatBrazilianPhone "" = "" ∧ formatBrazilianPhone "" ≠ "55" := by
  decide

/-- C9 (amended): `_format_brazilian_phone` is total (it is a pure function of
the character list), and for every NON-EMPTY input its result is "55" followed
only by decimal digits; a non-empty input with no digits at all yields exactly
"55".  The empty input, by contrast, short-circuits to the empty string. -/
theorem C9_phone_format_shape (s : String) (h : s ≠ "") :
    (∃ r, (formatBrazilianPhone s).data = '5' :: '5' :: r ∧ r.all Char.isDigit = true) ∧
    (s.data.filter Char.isDigit = [] → formatBrazilianPhone s = "55") := by
  constructor
  · simp only [formatBrazilianPhone, if_neg h]
    set d0 := s.data.filter Char.isDigit with hd0
    have hall0 : d0.all Char.isDigit = true := filter_digits_all s.data
    set d := if ['5', '5'].isPrefixOf d0 then d0.drop 2 else d0 with hd
    have hall : d.all Char.isDigit = true := by
      rw [hd]
      split
      · exact all_drop _ _ _ hall0
      · exact hall0
    by_cases h8 : d.length = 8
    · rw [if_pos h8]; exact ⟨d, rfl, hall⟩
    by_cases h9 : d.length = 9
    · rw [if_neg h8, if_pos h9]; exact ⟨d, rfl, hall⟩
    by_cases h10 : d.length = 10
    · rw [if_neg h8, if_neg h9, if_pos h10]
      by_cases hh : (d.drop 2).length = 8 ∧ (d.drop 2).headD ' ' ∈ (['6', '7', '8', '9'] : List Char)
      · rw [if_pos hh]
        refine ⟨d.take 2 ++ '9' :: d.drop 2, rfl, ?_⟩
        rw [List.all_eq_true]
        intro x hx
        rcases List.mem_append.mp hx with hx | hx
        · exact (List.all_eq_true.mp (all_take _ _ _ hall)) x hx
        · rcases List.mem_cons.mp hx with rfl | hx
          · decide
          · exact (List.all_eq_true.mp (all_drop _ _ _ hall)) x hx
      · rw [if_neg hh]
        refine ⟨d.take 2 ++ d.drop 2, rfl, ?_⟩
        rw [List.take_append_drop]
        exact hall
    by_cases h11 : d.length = 11
    · rw [if_neg h8, if_neg h9, if_neg h10, if_pos h11]
      refine ⟨d.take 2 ++ d.drop 2, rfl, ?_⟩
      rw [List.take_append_drop]
      exact hall
    · rw [if_neg h8, if_neg h9, if_neg h10, if_neg h11]
      exact ⟨d, rfl, hall⟩
  · intro hnil
    simp only [formatBrazilianPhone, if_neg h, hnil]
    decide

/-- Witness for C9_phone_format_shape at the digit-free input "abc". -/
theorem C9_phone_format_shape_witness :
    (∃ r, (formatBrazilianPhone "abc").data = '5' :: '5' :: r ∧ r.all Char.isDigit = true) ∧
    formatBrazilianPhone "abc" = "55" := by
  have h := C9_phone_format_shape "abc" (by decide)
  exact ⟨h.1, h.2 (by decide)⟩

theorem listInfix_singleton (c : Char) (l : List Char) :
    listInfix [c] l = true ↔ c ∈ l := by
  induction l with
  | nil => simp [listInfix]
  | cons a t ih =>
    simp only [listInfix, Bool.or_eq_true, List.mem_cons, ih]
    constructor
    · rintro (hp | hm)
      · left
        have : (c == a) = true := by
          simpa [List.isPrefixOf] using hp
        exact beq_iff_eq.mp this
      · right; exact hm
    · rintro (rfl | hm)
      · left; simp [List.isPrefixOf]
      · right; exact hm

theorem mem_dropWhile_of_mem (p : Char → Bool) (c : Char) (l : List Char)
    (hc : p c = false) (h : c ∈ l) : c ∈ l.dropWhile p := by
  induction l with
  | nil => cases h
  | cons a t ih =>
    by_cases ha : p a = true
    · rw [List.dropWhile_cons_of_pos ha]
      rcases List.mem_cons.mp h with rfl | hm
      · rw [hc] at ha; cases ha
      · exact ih hm
    · rw [List.dropWhile_cons_of_neg ha]
      exact h

theorem mem_pyStripL (c : Char) (l : List Char) (hc : pySpace c = false) (h : c ∈ l) :
    c ∈ pyStripL l := by
  unfold pyStripL
  rw [List.mem_reverse]
  apply mem_dropWhile_of_mem _ _ _ hc
  rw [List.mem_reverse]
  exact mem_dropWhile_of_mem _ _ _ hc h

/-- C6 (counterexample): the claim asserts every answer containing a
saude-group keyword normalizes to "Saúde/Liminares", but the code checks the
penal group first, so "crime na saude" (which contains "saude") normalizes to
"Direito Penal". -/
theorem C6_counterexample :
    pyIn "saude" (pyLower (pyStrip "crime na saude")) = true ∧
    validateAndNormalizeAnswerSchema "crime na saude" step3 = "Direito Penal" ∧
    validateAndNormalizeAnswerSchema "crime na saude" step3 ≠ "Saúde/Liminares" := by
  decide

/-- C6 (amended): on the area step, an answer containing a penal-group keyword
normalizes to "Direito Penal"; an answer containing a saude-group keyword and
NO penal-group keyword normalizes to "Saúde/Liminares" (the penal group is
checked first); strict mode accepts exactly the answers containing one of the
eight validation keywords; flexible mode additionally accepts any trimmed
answer of length ≥ 4; an answer matching none of the normalization keywords
(the two groups, which include the aliases "direito penal", "saude liminar",
"saúde liminar", "health", "injunction") normalizes to its title-cased
trimmed text. -/
theorem C6_area_validation (answer : String) :
    (penalKeywords.any (fun k => pyIn k (pyLower (pyStrip answer))) = true →
       validateAndNormalizeAnswerSchema answer step3 = "Direito Penal") ∧
    (saudeKeywords.any (fun k => pyIn k (pyLower (pyStrip answer))) = true →
       penalKeywords.any (fun k => pyIn k (pyLower (pyStrip answer))) = false →
       validateAndNormalizeAnswerSchema answer step3 = "Saúde/Liminares") ∧
    (shouldAdvanceStepSchema answer step3 false =
       validAreas.any (fun a => pyIn a (pyLower (pyStrip answer)))) ∧
    (shouldAdvanceStepSchema answer step3 true =
       (validAreas.any (fun a => pyIn a (pyLower (pyStrip answer))) ||
        decide (4 ≤ (pyStrip answer).length))) ∧
    (penalKeywords.any (fun k => pyIn k (pyLower (pyStrip answer))) = false →
       saudeKeywords.any (fun k => pyIn k (pyLower (pyStrip answer))) = false →
       validateAndNormalizeAnswerSchema answer step3 = pyTitle (pyStrip answer)) := by
  refine ⟨?_, ?_, ?_, ?_, ?_⟩
  · intro hp
    simp [validateAndNormalizeAnswerSchema, step3, hp]
  · intro hs hp
    simp [validateAndNormalizeAnswerSchema, step3, hp, hs]
  · by_cases he : pyStrip answer = ""
    · rw [he]
      simp [shouldAdvanceStepSchema, step3, he]
      decide
    · simp [shouldAdvanceStepSchema, step3, he]
  · by_cases he : pyStrip answer = ""
    · rw [he]
      simp [shouldAdvanceStepSchema, step3, he]
      decide
    · simp [shouldAdvanceStepSchema, step3, he]
  · intro hp hs
    simp [validateAndNormalizeAnswerSchema, step3, hp, hs]

/-- Witness for C6_area_validation at "liminar urgente" (saude keyword, no
penal keyword) and for the strict-acceptance clause at the same input. -/
theorem C6_area_validation_witness :
    validateAndNormalizeAnswerSchema "liminar urgente" step3 = "Saúde/Liminares" ∧
    shouldAdvanceStepSchema "liminar urgente" step3 false =
      validAreas.any (fun a => pyIn a (pyLower (pyStrip "liminar urgente"))) := by
  have h := C6_area_validation "liminar urgente"
  exact ⟨h.2.1 (by decide) (by decide), h.2.2.1⟩

/-- C10: because the confirmation keyword list contains the single letter "s"
and matching is substring containment on the lowercased answer, every step-5
answer containing the letter "s" (or "S") anywhere — e.g. the negatives
"não posso" or "desisto" — normalizes to the canonical token "Confirmado" and
is then accepted; when no affirmative keyword (hence in particular no letter
"s") occurs in the lowercased trimmed answer, normalization returns the
trimmed answer itself. -/
theorem C10_confirmation_s_matching (answer : String) (flex : Bool) :
    (('s' ∈ answer.data ∨ 'S' ∈ answer.data) →
       validateAndNormalizeAnswerSchema answer step5 = "Confirmado" ∧
       shouldAdvanceStepSchema (validateAndNormalizeAnswerSchema answer step5) step5 flex
         = true) ∧
    (confirmationNormKeywords.all
        (fun k => !(pyIn k (pyLower (pyStrip answer)))) = true →
       validateAndNormalizeAnswerSchema answer step5 = pyStrip answer) := by
  constructor
  · intro hs
    have hmem : 's' ∈ (pyLower (pyStrip answer)).data := by
      rcases hs with hs | hs
      · have h1 : 's' ∈ pyStripL answer.data :=
          mem_pyStripL 's' answer.data (by decide) hs
        have h2 : pyLowerChar 's' ∈ (pyStripL answer.data).map pyLowerChar :=
          List.mem_map_of_mem pyLowerChar h1
        simpa [pyLower, pyStrip] using h2
      · have h1 : 'S' ∈ pyStripL answer.data :=
          mem_pyStripL 'S' answer.data (by decide) hs
      
        have h2 : pyLowerChar 'S' ∈ (pyStripL answer.data).map pyLowerChar :=
          List.mem_map_of_mem pyLowerChar h1
        have hS : pyLowerChar 'S' = 's' := by decide
        rw [hS] at h2
        simpa [pyLower, pyStrip] using h2
    have hin : pyIn "s" (pyLower (pyStrip answer)) = true := by
      show listInfix ['s'] (pyLower (pyStrip answer)).data = true
      exact (listInfix_singleton 's' _).mpr hmem
    have hany : confirmationNormKeywords.any
        (fun k => pyIn k (pyLower (pyStrip answer))) = true := by
      rw [List.any_eq_true]
      exact ⟨"s", by decide, hin⟩
    have hnorm : validateAndNormalizeAnswerSchema answer step5 = "Confirmado" := by
      simp [validateAndNormalizeAnswerSchema, step5, hany]
    refine ⟨hnorm, ?_⟩
    rw [hnorm]
    cases flex <;> decide
  · intro hall
    have hany : confirmationNormKeywords.any
        (fun k => pyIn k (pyLower (pyStrip answer))) = false := by
      rw [Bool.eq_false_iff]
      intro hcon
      rcases List.any_eq_true.mp hcon with ⟨k, hk, hkin⟩
      have := (List.all_eq_true.mp hall) k hk
      rw [hkin] at this
      cases this
    simp [validateAndNormalizeAnswerSchema, step5, hany]

/-- Witness for C10_confirmation_s_matching: the negative answer "não posso"
contains "s", is normalized to "Confirmado" and accepted; the keyword-free
answer "não" is passed through trimmed. -/
theorem C10_confirmation_s_matching_witness :
    (validateAndNormalizeAnswerSchema "não posso" step5 = "Confirmado" ∧
     shouldAdvanceStepSchema (validateAndNormalizeAnswerSchema "não posso" step5) step5 true
       = true) ∧
    validateAndNormalizeAnswerSchema "não" step5 = pyStrip "não" := by
  exact ⟨(C10_confirmation_s_matching "não posso" true).1 (Or.inl (by decide)),
         (C10_confirmation_s_matching "não" true).2 (by decide)⟩

theorem replaceAllAux_ne_nil (pat rep : List Char) (f : Nat) (l : List Char)
    (hl : l ≠ []) (hrep : rep ≠ []) : replaceAllAux pat rep f l ≠ [] := by
  cases l with
  | nil => exact absurd rfl hl
  | cons c cs =>
    cases f with
    | zero => simp [replaceAllAux]
    | succ f =>
      simp only [replaceAllAux]
      split
      · simp [hrep]
      · simp

theorem interpStep_ne_empty (m : String) (kv : String × String) (hm : m ≠ "") :
    interpStep m kv ≠ "" := by
  unfold interpStep
  split
  case isTrue hcond =>
    have hdata : m.data ≠ [] := fun hnil => hm (congrArg String.mk hnil)
    have hrep : kv.2.data ≠ [] := fun hnil => hcond.1 (congrArg String.mk hnil)
    intro hcon
    exact replaceAllAux_ne_nil _ _ _ _ hdata hrep (congrArg String.data hcon)
  case isFalse => exact hm

theorem foldl_interpStep_ne_empty (ps : List (String × String)) (m : String) (hm : m ≠ "") :
    ps.foldl interpStep m ≠ "" := by
  induction ps generalizing m with
  | nil => exact hm
  | cons kv t ih =>
    rw [List.foldl_cons]
    exact ih _ (interpStep_ne_empty m kv hm)

theorem foldl_interpStep_id (ps : List (String × String)) (m : String)
    (h : ∀ kv ∈ ps, kv.2 ≠ "" → pyIn ("\x7b" ++ kv.1 ++ "\x7d") m = false) :
    ps.foldl interpStep m = m := by
  induction ps with
  | nil => rfl
  | cons kv t ih =>
    rw [List.foldl_cons]
    have hstep : interpStep m kv = m := by
      unfold interpStep
      split
      case isTrue hcond =>
        have := h kv (List.mem_cons_self kv t) hcond.1
        rw [hcond.2] at this
        cases this
      case isFalse => rfl
    rw [hstep]
    exact ih (fun kv2 hkv2 => h kv2 (List.mem_cons_of_mem kv hkv2))

/-- C8 (counterexample): interpolation is NOT idempotent for every template
and lead_data — a later substitution can assemble a new placeholder token that
an earlier pass already went past.  Here the first interpolation of
"\x7bus\x7barea\x7d_name\x7d" yields "\x7buser_name\x7d", and a second
interpolation substitutes the name. -/
theorem C8_counterexample :
    interpolateMessage
        (interpolateMessage "\x7bus\x7barea\x7d_name\x7d"
          [("identification", "John"), ("area_qualification", "er")])
        [("identification", "John"), ("area_qualification", "er")] ≠
      interpolateMessage "\x7bus\x7barea\x7d_name\x7d"
        [("identification", "John"), ("area_qualification", "er")] := by
  decide

/-- C8 (amended): for every non-empty template the interpolator substitutes
exactly the six placeholder tokens, each only when its lead_data field is
non-empty (empty fields leave their placeholders verbatim: the iteration step
is the identity on them); the case summary equals the case details truncated
to 100 characters plus "..." exactly when they exceed 100 characters; and
interpolation is idempotent PROVIDED the first interpolation's result
contains no placeholder token whose field is non-empty (which holds whenever
no substituted value re-assembles a token, but not in general — see the
counterexample). -/
theorem C8_interpolation (t : String) (ld : List (String × String)) (ht : t ≠ "") :
    ((interpolationData ld).map Prod.fst =
       ["user_name", "area", "contact_info", "case_details", "phone", "case_summary"]) ∧
    (∀ kv ∈ interpolationData ld, kv.2 = "" → ∀ m, interpStep m kv = m) ∧
    (interpolateMessage t ld = (interpolationData ld).foldl interpStep t) ∧
    ((100 < (ldGet ld "case_details" "").length →
        ldGet (interpolationData ld) "case_summary" "" =
          ⟨(ldGet ld "case_details" "").data.take 100⟩ ++ "...") ∧
     ((ldGet ld "case_details" "").length ≤ 100 →
        ldGet (interpolationData ld) "case_summary" "" = ldGet ld "case_details" "")) ∧
    ((∀ kv ∈ interpolationData ld, kv.2 ≠ "" →
        pyIn ("\x7b" ++ kv.1 ++ "\x7d") (interpolateMessage t ld) = false) →
      interpolateMessage (interpolateMessage t ld) ld = interpolateMessage t ld) := by
  have hfold : interpolateMessage t ld = (interpolationData ld).foldl interpStep t := by
    simp [interpolateMessage, ht]
  refine ⟨by simp [interpolationData], ?_, hfold, ⟨?_, ?_⟩, ?_⟩
  · intro kv _ hkv m
    unfold interpStep
    rw [if_neg (fun hc => hc.1 hkv)]
  · intro hlong
    have hne : ldGet ld "case_details" "" ≠ "" := by
      intro hnil
      rw [hnil] at hlong
      simp [String.length] at hlong
    simp [interpolationData, ldGet, hne, hlong]
  · intro hshort
    have hno : ¬(ldGet ld "case_details" "" ≠ "" ∧ 100 < (ldGet ld "case_details" "").length) :=
      fun hc => absurd hc.2 (by omega)
    simp [interpolationData, ldGet, hno]
  · intro hno
    have hne : interpolateMessage t ld ≠ "" := by
      rw [hfold]
      exact foldl_interpStep_ne_empty _ _ ht
    conv_lhs => rw [interpolateMessage, if_neg hne]
    rw [foldl_interpStep_id]
    intro kv hkv hkv2
    exact hno kv hkv hkv2

/-- Witness for C8_interpolation: a template whose result re-contains no
token, so both the substitution form and conditional idempotence apply. -/
theorem C8_interpolation_witness :
    interpolateMessage
        (interpolateMessage "Olá \x7buser_name\x7d!" [("identification", "Ana")])
        [("identification", "Ana")] =
      interpolateMessage "Olá \x7buser_name\x7d!" [("identification", "Ana")] ∧
    interpolateMessage "Olá \x7buser_name\x7d!" [("identification", "Ana")] = "Olá Ana!" := by
  refine ⟨(C8_interpolation "Olá \x7buser_name\x7d!" [("identification", "Ana")]
    (by decide)).2.2.2.2 ?_, by decide⟩
  intro kv hkv hkv2
  fin_cases hkv <;> simp_all <;> decide

/-- C4: finalization resolves the phone as `lead_data["phone"]` when
non-empty, else the first 10–11 digit run of `lead_data["contact_info"]`
(that is `specResolvePhone`); when the resolved phone has fewer than 10
characters it returns the phone-request prompt, issues no collaborator call
(no lead persistence, no notification, no message dispatch) and leaves the
session — in particular the completion flag — untouched; when it is usable,
exactly that resolved phone is stored and formatted. -/
theorem C4_finalization_phone_guard (wok : Bool) (s : Session) :
    ((specResolvePhone s.leadData).length < 10 →
       handleLeadFinalization wok s = (s, phonePrompt, noFinEffects) ∧
       (handleLeadFinalization wok s).1.fallbackCompleted = s.fallbackCompleted) ∧
    (10 ≤ (specResolvePhone s.leadData).length →
       (handleLeadFinalization wok s).1.phoneNumber = some (specResolvePhone s.leadData) ∧
       (handleLeadFinalization wok s).1.phoneFormatted =
         some (formatBrazilianPhone (specResolvePhone s.leadData)) ∧
       ldGet (handleLeadFinalization wok s).1.leadData "phone" "" =
         specResolvePhone s.leadData ∧
       (handleLeadFinalization wok s).1.phoneSubmitted = true ∧
       (handleLeadFinalization wok s).2.2 = ⟨true, true, true⟩) := by
  have hresolve :
      (if ldGet s.leadData "phone" "" = "" then
         match findPhoneRun (ldGet s.leadData "contact_info" "").data with
         | some r => (⟨r⟩ : String)
         | none => ""
       else ldGet s.leadData "phone" "") = specResolvePhone s.leadData := rfl
  constructor
  · intro hlt
    simp only [handleLeadFinalization]
    rw [hresolve, if_pos hlt]
    exact ⟨rfl, rfl⟩
  · intro hge
    simp only [handleLeadFinalization]
    rw [hresolve, if_neg (by omega)]
    exact ⟨rfl, rfl, ldGet_ldSet_self _ _ _ _, rfl, rfl⟩

/-- Witness for C4_finalization_phone_guard: a completed session whose
contact text contains no digit run resolves to the empty phone, so
finalization returns the prompt and issues no collaborator call; a session
with a stored 11-digit phone takes the success branch. -/
theorem C4_finalization_phone_guard_witness :
    handleLeadFinalization true sessionNoPhone = (sessionNoPhone, phonePrompt, noFinEffects) ∧
    (handleLeadFinalization true
        { sessionNoPhone with
            leadData := [("identification", "Ana Maria"), ("phone", "11987654321")] }).1.phoneNumber
      = some "11987654321" := by
  constructor
  · exact ((C4_finalization_phone_guard true sessionNoPhone).1 (by decide)).1
  · have h := ((C4_finalization_phone_guard true
      { sessionNoPhone with
          leadData := [("identification", "Ana Maria"), ("phone", "11987654321")] }).2 (by decide)).1
    rw [h]
    decide

/-- C7: `process_message` never raises — for every environment outcome and
every input, when the body signals an exception the outer handler converts it
into a returned record carrying the recovery prompt, an error-tagged
response_type and the error text; when the body succeeds its record is
returned unchanged. -/
theorem C7_process_message_never_raises (env : Env) (message sessionId : String)
    (phoneNumber : Option String) (platform : String) :
    (∀ e, processMessageExc env message sessionId phoneNumber platform = .error e →
       processMessage env message sessionId phoneNumber platform =
         (mkErrorRecord platform sessionId e, none) ∧
       (mkErrorRecord platform sessionId e).error = some e ∧
       pyIn "error" (mkErrorRecord platform sessionId e).responseType = true ∧
       (mkErrorRecord platform sessionId e).response =
         "Olá! Seja bem-vindo ao m.lima. Vamos iniciar, qual é o seu nome completo?") ∧
    (∀ r, processMessageExc env message sessionId phoneNumber platform = .ok r →
       processMessage env message sessionId phoneNumber platform = (r.1, some r.2)) := by
  constructor
  · intro e he
    refine ⟨?_, rfl, ?_, rfl⟩
    · unfold processMessage
      rw [he]
    · show pyIn "error" "orchestration_error_debug" = true
      decide
  · intro r hr
    unfold processMessage
    rw [hr]

/-- Witness for C7_process_message_never_raises: a failing session-store read
is converted into the error record. -/
theorem C7_process_message_never_raises_witness :
    processMessage { getRaises := true } "oi" "s1" none "web" =
      (mkErrorRecord "web" "s1" "get_user_session failed", none) :=
  ((C7_process_message_never_raises { getRaises := true } "oi" "s1" none "web").1
    "get_user_session failed" rfl).1

/-- C1: on every initialized, non-completed session sitting on an existing
step, a message with non-blank text that is not the step-1 greeting
short-circuit is evaluated exactly once: the attempt counter of the current
step is first incremented by 1 and the answer is evaluated in flexible mode
iff the incremented counter exceeds 3; in particular when three rejected
submissions are already recorded, the 4th submission is evaluated with the
relaxed thresholds.  (The `attemptEval` component mirrors the engine's
attempt/flexible debug log of the evaluation it performs.) -/
theorem C1_flexible_mode_threshold (wok : Bool) (s : Session) (m : String) (st : Step)
    (hinit : s.flowInitialized = true) (hnc : s.fallbackCompleted = false)
    (hfind : findStep s.fallbackStep = some st)
    (hne : pyStrip m ≠ "")
    (hng : ¬(s.fallbackStep = 1 ∧ isGreetingMessage m = true)) :
    (getFallbackResponse wok s m).attemptEval =
      some (attD s.validationAttempts s.fallbackStep + 1,
            decide (3 < attD s.validationAttempts s.fallbackStep + 1),
            validateAndNormalizeAnswerSchema m st,
            shouldAdvanceStepSchema (validateAndNormalizeAnswerSchema m st) st
              (decide (3 < attD s.validationAttempts s.fallbackStep + 1))) ∧
    (attD s.validationAttempts s.fallbackStep = 3 →
      ∃ norm acc, (getFallbackResponse wok s m).attemptEval = some (4, true, norm, acc)) := by
  have key : (getFallbackResponse wok s m).attemptEval =
      some (attD s.validationAttempts s.fallbackStep + 1,
            decide (3 < attD s.validationAttempts s.fallbackStep + 1),
            validateAndNormalizeAnswerSchema m st,
            shouldAdvanceStepSchema (validateAndNormalizeAnswerSchema m st) st
              (decide (3 < attD s.validationAttempts s.fallbackStep + 1))) := by
    simp only [getFallbackResponse, hinit, hnc, hfind]
    rw [if_neg (by simp), if_neg (by simp)]
    rw [if_neg hng, if_neg hne]
    split
    · simp [attD_ensureAtt]
    · split
      · simp [attD_ensureAtt]
      · simp [attD_ensureAtt]
  refine ⟨key, fun h3 => ?_⟩
  rw [h3] at key
  exact ⟨_, _, key⟩

/-- Witness for C1_flexible_mode_threshold: a step-1 session with three
recorded attempts evaluates the 4th submission "x" (an invalid name) in
flexible mode: the ghost log reads attempt 4, flexible true, rejected. -/
theorem C1_flexible_mode_threshold_witness :
    (getFallbackResponse true sessionStep1Tries3 "x").attemptEval =
      some (4, true, "x", false) := by
  have h := (C1_flexible_mode_threshold true sessionStep1Tries3 "x" step1
    rfl rfl (by decide) (by decide) (by decide)).1
  rw [h]
  decide

/-- C2: on every initialized, non-completed session whose current step exists:
(a) a step-1 greeting re-emits the current step's interpolated question, does
not change the attempt counter and evaluates nothing; (b) a blank message does
the same; (c) a processed (non-blank, non-greeting) answer that is rejected
increments the current step's counter by exactly 1; (d) a processed answer
that is accepted resets the current step's counter to 0, and when a next step
exists the engine moves to it with its counter set to 0 (counters are 0 when
a step is entered and when it is passed). -/
theorem C2_attempt_counter_invariant (wok : Bool) (s : Session) (m : String) (st : Step)
    (hinit : s.flowInitialized = true) (hnc : s.fallbackCompleted = false)
    (hfind : findStep s.fallbackStep = some st) :
    ((s.fallbackStep = 1 ∧ isGreetingMessage m = true) →
       (getFallbackResponse wok s m).response = interpolateMessage st.question s.leadData ∧
       attD (getFallbackResponse wok s m).session.validationAttempts s.fallbackStep =
         attD s.validationAttempts s.fallbackStep ∧
       (getFallbackResponse wok s m).attemptEval = none) ∧
    (pyStrip m = "" →
       (getFallbackResponse wok s m).response = interpolateMessage st.question s.leadData ∧
       attD (getFallbackResponse wok s m).session.validationAttempts s.fallbackStep =
         attD s.validationAttempts s.fallbackStep ∧
       (getFallbackResponse wok s m).attemptEval = none) ∧
    (pyStrip m ≠ "" → ¬(s.fallbackStep = 1 ∧ isGreetingMessage m = true) →
       (shouldAdvanceStepSchema (validateAndNormalizeAnswerSchema m st) st
            (decide (3 < attD s.validationAttempts s.fallbackStep + 1)) = false →
          attD (getFallbackResponse wok s m).session.validationAttempts s.fallbackStep =
            attD s.validationAttempts s.fallbackStep + 1) ∧
       (shouldAdvanceStepSchema (validateAndNormalizeAnswerSchema m st) st
            (decide (3 < attD s.validationAttempts s.fallbackStep + 1)) = true →
          attD (getFallbackResponse wok s m).session.validationAttempts s.fallbackStep = 0 ∧
          (∀ st2, findStep (s.fallbackStep + 1) = some st2 →
             (getFallbackResponse wok s m).session.fallbackStep = s.fallbackStep + 1 ∧
             attD (getFallbackResponse wok s m).session.validationAttempts
               (s.fallbackStep + 1) = 0))) := by
  have hk1 : s.fallbackStep ≠ s.fallbackStep + 1 := by omega
  refine ⟨?_, ?_, ?_⟩
  · intro hg
    simp only [getFallbackResponse, hinit, hnc, hfind, attD_ensureAtt]
    rw [if_neg (by simp), if_neg (by simp), if_pos hg]
    exact ⟨rfl, attD_ensureAtt _ _, rfl⟩
  · intro hemp
    simp only [getFallbackResponse, hinit, hnc, hfind, attD_ensureAtt]
    rw [if_neg (by simp), if_neg (by simp)]
    by_cases hg : s.fallbackStep = 1 ∧ isGreetingMessage m = true
    · rw [if_pos hg]
      exact ⟨rfl, attD_ensureAtt _ _, rfl⟩
    · rw [if_neg hg, if_pos hemp]
      exact ⟨rfl, attD_ensureAtt _ _, rfl⟩
  · intro hne hng
    simp only [getFallbackResponse, hinit, hnc, hfind, attD_ensureAtt]
    rw [if_neg (by simp), if_neg (by simp), if_neg hng, if_neg hne]
    constructor
    · intro hrej
      split
      · simp [attD_setAtt_self, attD_ensureAtt]
      case isFalse hadv => exact absurd hrej hadv
    · intro hacc
      split
      case isTrue hadv => rw [hacc] at hadv; cases hadv
      case isFalse hadv =>
        split
        case h_1 st2' heq =>
          refine ⟨?_, ?_⟩
          · simp [attD_setAtt_ne _ _ _ _ hk1, attD_setAtt_self]
          · intro st2 hfind2
            refine ⟨rfl, ?_⟩
            simp [attD_setAtt_self]
        case h_2 heq =>
          refine ⟨?_, ?_⟩
          · simp [handleLeadFinalization_validationAttempts, attD_setAtt_self]
          · intro st2 hfind2
            rw [heq] at hfind2
            cases hfind2

/-- Witness for C2_attempt_counter_invariant: on a fresh step-1 session the
greeting "oi" evaluates nothing and keeps the counter, while the accepted
name "João Silva" resets step 1's counter to 0 and enters step 2 with a zero
counter. -/
theorem C2_attempt_counter_invariant_witness :
    (getFallbackResponse true sessionStep1Fresh "oi").attemptEval = none ∧
    attD (getFallbackResponse true sessionStep1Fresh "oi").session.validationAttempts 1 = 0 ∧
    attD (getFallbackResponse true sessionStep1Fresh "João Silva").session.validationAttempts 1
      = 0 ∧
    (getFallbackResponse true sessionStep1Fresh "João Silva").session.fallbackStep = 2 ∧
    attD (getFallbackResponse true sessionStep1Fresh "João Silva").session.validationAttempts 2
      = 0 := by
  have ha := (C2_attempt_counter_invariant true sessionStep1Fresh "oi" step1
    rfl rfl (by decide)).1 (by decide)
  have hd := ((C2_attempt_counter_invariant true sessionStep1Fresh "João Silva" step1
    rfl rfl (by decide)).2.2 (by decide) (by decide)).2 (by decide)
  exact ⟨ha.2.2, ha.2.1.trans (by decide), hd.1, (hd.2 step2 (by decide)).1,
         (hd.2 step2 (by decide)).2⟩

/-- C3 (counterexample): the claim says EVERY post-completion message returns
the static acknowledgement and leaves lead_data unchanged, but a completed,
qualified session without a submitted phone routes a phone-looking message to
the phone-collection path: the response is not the acknowledgement and
lead_data gains a "phone" field. -/
theorem C3_counterexample :
    (processMessage { storedSession := some sessionCompleted } "11999999999" "s1" none
        "web").1.responseType = "phone_collected_debug" ∧
    (processMessage { storedSession := some sessionCompleted } "11999999999" "s1" none
        "web").1.response ≠ completedAck sessionCompleted ∧
    ((processMessage { storedSession := some sessionCompleted } "11999999999" "s1" none
        "web").2.map Session.leadData) ≠ some sessionCompleted.leadData := by
  refine ⟨by decide, by decide, ?_⟩
  decide

/-- C3 (amended): once the completion flag is true (on an initialized session,
with the session store reachable), every further message EXCEPT one routed to
the trailing phone-collection path (lead_qualified with no submitted phone and
a 10–13 digit message) returns the static acknowledgement referencing the
stored name and leaves lead_data unchanged. -/
theorem C3_completed_idempotent (env : Env) (m sessionId : String) (pn : Option String)
    (platform : String) (s : Session)
    (hstored : env.storedSession = some s) (hget : env.getRaises = false)
    (hsave : env.saveRaises = false)
    (hinit : s.flowInitialized = true) (hc : s.fallbackCompleted = true)
    (hnp : ¬(s.leadQualified = true ∧ s.phoneSubmitted = false ∧ isPhoneNumber m = true)) :
    (processMessage env m sessionId pn platform).1.response = completedAck s ∧
    (processMessage env m sessionId pn platform).1.leadData = some s.leadData ∧
    ∃ sd, (processMessage env m sessionId pn platform).2 = some sd ∧
          sd.leadData = s.leadData ∧ sd.fallbackCompleted = true := by
  cases pn with
  | none =>
    simp [processMessage, processMessageExc, hstored, hget, hsave, hnp,
          getFallbackResponse, hinit, hc, completedAck]
  | some p =>
    have hnp' : ¬(s.leadQualified = true ∧ s.phoneSubmitted = false ∧
        isPhoneNumber m = true) := hnp
    simp [processMessage, processMessageExc, hstored, hget, hsave, hnp',
          getFallbackResponse, hinit, hc, completedAck]

/-- Witness for C3_completed_idempotent: a non-phone message to the completed
session returns the acknowledgement and leaves lead_data as stored. -/
theorem C3_completed_idempotent_witness :
    (processMessage { storedSession := some sessionCompleted } "tudo bem?" "s1" none
        "web").1.response = completedAck sessionCompleted ∧
    (processMessage { storedSession := some sessionCompleted } "tudo bem?" "s1" none
        "web").1.leadData = some sessionCompleted.leadData := by
  have h := C3_completed_idempotent { storedSession := some sessionCompleted } "tudo bem?"
    "s1" none "web" sessionCompleted rfl rfl rfl rfl rfl (by decide)
  exact ⟨h.1, h.2.1⟩
